import Mathlib

/-!
Verification development for the IT Glue MCP server (`src/index.ts`).

The file shallowly embeds the server's core logic:

* the case converter (`kebabToCamel`, `camelToKebab`),
* JavaScript values, truthiness and stringification as used by the code,
* the query-string builder (`buildFilterParams`, `buildQueryString`),
* the JSON:API response normaliser (`ITGlueClient.request`),
* the static tool catalog (the `ListToolsRequestSchema` handler), and
* the tool dispatcher (the `CallToolRequestSchema` handler),

and proves theorems about the behaviour of these definitions.

Strings are modelled by Lean `String` (a structure over `List Char`); the
regex-based case conversions are modelled by structurally recursive scans
over the character list with exactly the semantics of the JavaScript
`String.replace` calls in the source.

The dispatcher is modelled as a pure function from credentials, tool name
and arguments to a `DispatchResult`: either an error content block returned
*before any HTTP request is issued* (`errorBlock`), or the single HTTP
request `(path, params)` that the selected branch hands to
`ITGlueClient.request` (`httpCall`).  Every branch of the source handler
performs at most one client call, so this captures the handler's observable
behaviour up to that call.
-/

/-! ## Case converter (src/index.ts, `kebabToCamel` / `camelToKebab`) -/

/-- `c` is an ASCII lowercase letter (`[a-z]` in the source regexes). -/
def isLowerAZ (c : Char) : Bool := 97 ≤ c.toNat && c.toNat ≤ 122

/-- `c` is an ASCII uppercase letter (`[A-Z]` in the source regexes). -/
def isUpperAZ (c : Char) : Bool := 65 ≤ c.toNat && c.toNat ≤ 90

/-- ASCII uppercasing of a lowercase letter (`letter.toUpperCase()`). -/
def toUpperAZ (c : Char) : Char :=
  if isLowerAZ c then Char.ofNat (c.toNat - 32) else c

/-- ASCII lowercasing of an uppercase letter (`letter.toLowerCase()`). -/
def toLowerAZ (c : Char) : Char :=
  if isUpperAZ c then Char.ofNat (c.toNat + 32) else c

/-- `str.replace` with the global regex matching a hyphen followed by a
lowercase letter, replacing the pair with the uppercased letter, as a
left-to-right non-overlapping scan over the character list. -/
def kebabToCamelL : List Char → List Char
  | [] => []
  | [c] => [c]
  | c :: c2 :: rest2 =>
    if c = '-' && isLowerAZ c2 then toUpperAZ c2 :: kebabToCamelL rest2
    else c :: kebabToCamelL (c2 :: rest2)

/-- `str.replace` with the global regex matching an uppercase letter,
replacing it with a hyphen followed by its lowercased form, as a scan over
the character list. -/
def camelToKebabL : List Char → List Char
  | [] => []
  | c :: rest =>
    if isUpperAZ c then '-' :: toLowerAZ c :: camelToKebabL rest
    else c :: camelToKebabL rest

/-- `kebabToCamel` from src/index.ts, on `String`. -/
def kebabToCamel (s : String) : String := ⟨kebabToCamelL s.data⟩

/-- `camelToKebab` from src/index.ts, on `String`. -/
def camelToKebab (s : String) : String := ⟨camelToKebabL s.data⟩

/-! ### Character-level lemmas -/

theorem toNat_ofNat_valid (n : Nat) (h : n < 55296) : (Char.ofNat n).toNat = n := by
  have hv : n.isValidChar := Or.inl h
  simp only [Char.ofNat, hv, dite_true, Char.ofNatAux, Char.toNat, UInt32.toNat,
    BitVec.toNat_ofNatLt]

theorem isLowerAZ_iff {c : Char} : isLowerAZ c = true ↔ 97 ≤ c.toNat ∧ c.toNat ≤ 122 := by
  simp [isLowerAZ]

theorem isUpperAZ_iff {c : Char} : isUpperAZ c = true ↔ 65 ≤ c.toNat ∧ c.toNat ≤ 90 := by
  simp [isUpperAZ]

theorem toNat_toUpperAZ {c : Char} (h : isLowerAZ c = true) :
    (toUpperAZ c).toNat = c.toNat - 32 := by
  obtain ⟨h1, h2⟩ := isLowerAZ_iff.mp h
  rw [toUpperAZ, if_pos h, toNat_ofNat_valid _ (by omega)]

theorem isUpperAZ_toUpperAZ {c : Char} (h : isLowerAZ c = true) :
    isUpperAZ (toUpperAZ c) = true := by
  obtain ⟨h1, h2⟩ := isLowerAZ_iff.mp h
  rw [isUpperAZ_iff, toNat_toUpperAZ h]
  omega

theorem toLowerAZ_toUpperAZ {c : Char} (h : isLowerAZ c = true) :
    toLowerAZ (toUpperAZ c) = c := by
  obtain ⟨h1, h2⟩ := isLowerAZ_iff.mp h
  rw [toLowerAZ, if_pos (isUpperAZ_toUpperAZ h), toNat_toUpperAZ h]
  have he : c.toNat - 32 + 32 = c.toNat := by omega
  rw [he, Char.ofNat_toNat]

theorem not_isUpperAZ_of_isLowerAZ {c : Char} (h : isLowerAZ c = true) :
    isUpperAZ c = false := by
  obtain ⟨h1, h2⟩ := isLowerAZ_iff.mp h
  rcases hu : isUpperAZ c with _ | _
  · rfl
  · obtain ⟨h3, h4⟩ := isUpperAZ_iff.mp hu
    omega

/-! ### Round-trip and identity lemmas for the converter -/

theorem camelToKebabL_id {l : List Char} (h : ∀ c ∈ l, isUpperAZ c = false) :
    camelToKebabL l = l := by
  induction l with
  | nil => rfl
  | cons c rest ih =>
    have hc : isUpperAZ c = false := h c (List.mem_cons_self c rest)
    rw [camelToKebabL, if_neg (by simp [hc]), ih fun x hx => h x (List.mem_cons_of_mem c hx)]

theorem kebabToCamelL_id {l : List Char} (h : '-' ∉ l) : kebabToCamelL l = l := by
  induction l using kebabToCamelL.induct with
  | case1 => rfl
  | case2 c => rfl
  | case3 c c2 rest2 hcond ih =>
    exfalso
    have hc : c = '-' := by
      rcases Bool.and_eq_true _ _ |>.mp hcond with ⟨hd, _⟩
      exact of_decide_eq_true hd
    exact h (hc ▸ List.mem_cons_self c (c2 :: rest2))
  | case4 c c2 rest2 hcond ih =>
    rw [kebabToCamelL, if_neg (by simpa using hcond),
      ih fun hx => h (List.mem_cons_of_mem c hx)]

theorem kebab_camel_roundtrip_aux {l : List Char}
    (h : ∀ c ∈ l, isLowerAZ c = true ∨ c = '-') :
    camelToKebabL (kebabToCamelL l) = l := by
  induction l using kebabToCamelL.induct with
  | case1 => rfl
  | case2 c =>
    have hcu : isUpperAZ c = false := by
      rcases h c (List.mem_cons_self c []) with hl | rfl
      · exact not_isUpperAZ_of_isLowerAZ hl
      · rfl
    rw [kebabToCamelL, camelToKebabL, if_neg (by simp [hcu]), camelToKebabL]
  | case3 c c2 rest2 hcond ih =>
    obtain ⟨hc, hc2⟩ := Bool.and_eq_true _ _ |>.mp hcond
    have ih' := ih fun x hx =>
      h x (List.mem_cons_of_mem c (List.mem_cons_of_mem c2 hx))
    rw [kebabToCamelL, if_pos hcond, camelToKebabL,
      if_pos (by simp [isUpperAZ_toUpperAZ hc2]), toLowerAZ_toUpperAZ hc2, ih',
      of_decide_eq_true hc]
  | case4 c c2 rest2 hcond ih =>
    have hcu : isUpperAZ c = false := by
      rcases h c (List.mem_cons_self c (c2 :: rest2)) with hl | rfl
      · exact not_isUpperAZ_of_isLowerAZ hl
      · rfl
    have ih' := ih fun x hx => h x (List.mem_cons_of_mem c hx)
    rw [kebabToCamelL, if_neg (by simpa using hcond), camelToKebabL,
      if_neg (by simp [hcu]), ih']

/-- Hyphen-joined segments: `joinKebab [s1, s2, ..., sn]` is the character
list `s1 ++ "-" ++ s2 ++ "-" ++ ... ++ sn`. -/
def joinKebab : List (List Char) → List Char
  | [] => []
  | [seg] => seg
  | seg :: seg2 :: rest => seg ++ '-' :: joinKebab (seg2 :: rest)

theorem mem_joinKebab {c : Char} {segs : List (List Char)}
    (h : c ∈ joinKebab segs) : (∃ seg ∈ segs, c ∈ seg) ∨ c = '-' := by
  induction segs using joinKebab.induct with
  | case1 => simp [joinKebab] at h
  | case2 seg =>
    exact Or.inl ⟨seg, List.mem_cons_self seg [], by simpa [joinKebab] using h⟩
  | case3 seg seg2 rest ih =>
    rw [joinKebab] at h
    rcases List.mem_append.mp h with h1 | h1
    · exact Or.inl ⟨seg, List.mem_cons_self _ _, h1⟩
    · rcases List.mem_cons.mp h1 with rfl | h2
      · exact Or.inr rfl
      · rcases ih h2 with ⟨s, hs, hcs⟩ | hd
        · exact Or.inl ⟨s, List.mem_cons_of_mem _ hs, hcs⟩
        · exact Or.inr hd

/-! ## JavaScript values

The dispatcher and client manipulate untyped JavaScript values
(`Record<string, unknown>` in the source).  `JVal` models the value shapes
the code can observe: strings, numbers (the source only ever handles
integral ids, page sizes and counts), booleans, `null`, `undefined`,
plain objects (as association lists in insertion order) and arrays. -/

inductive JVal where
  | str : String → JVal
  | num : Int → JVal
  | bool : Bool → JVal
  | null : JVal
  | undefined : JVal
  | obj : List (String × JVal) → JVal
  | arr : List JVal → JVal

/-- JavaScript truthiness of a `JVal` (`if (v)` in the source). -/
def truthy : JVal → Bool
  | .str s => !(s == "")
  | .num n => !(n == 0)
  | .bool b => b
  | .null => false
  | .undefined => false
  | .obj _ => true
  | .arr _ => true

/-- The JavaScript `a || b` operator: `a` if truthy, otherwise `b`. -/
def jsOr (a b : JVal) : JVal := if truthy a then a else b

/-- Property lookup on an object's association list; absent keys read as
`undefined`, as in JavaScript. -/
def jlookup (o : List (String × JVal)) (k : String) : JVal :=
  match o.find? (fun p => p.1 == k) with
  | some p => p.2
  | none => .undefined

/-- Property access `v.k` on an arbitrary value: object lookup, otherwise
`undefined` (the source only reads `size` / `number`, which are not
properties of non-object values it can receive). -/
def jprop (v : JVal) (k : String) : JVal :=
  match v with
  | .obj o => jlookup o k
  | _ => .undefined

/-- `args?.k` where `args : Record<string, unknown> | undefined`. -/
def argGet (args : Option (List (String × JVal))) (k : String) : JVal :=
  match args with
  | some o => jlookup o k
  | none => .undefined

mutual

/-- The JavaScript `String(v)` conversion for the value shapes of `JVal`. -/
def jsToString : JVal → String
  | .str s => s
  | .num n => toString n
  | .bool b => cond b "true" "false"
  | .null => "null"
  | .undefined => "undefined"
  | .obj _ => "[object Object]"
  | .arr l => jsArrToString l

/-- `Array.prototype.toString`: elements joined with commas, `null` and
`undefined` elements rendered as empty strings. -/
def jsArrToString : List JVal → String
  | [] => ""
  | [JVal.null] => ""
  | [JVal.undefined] => ""
  | [v] => jsToString v
  | JVal.null :: rest => "," ++ jsArrToString rest
  | JVal.undefined :: rest => "," ++ jsArrToString rest
  | v :: rest => jsToString v ++ "," ++ jsArrToString rest

end

/-- `Object.entries(v)` for an object or array operand (the shapes that
pass the source's `typeof value === "object"` checks). -/
def jsEntries : JVal → List (String × JVal)
  | .obj o => o
  | .arr l => l.enum.map (fun p => (toString p.1, p.2))
  | _ => []

/-! ## Query-string construction
(src/index.ts, `buildFilterParams` / `ITGlueClient.buildQueryString`) -/

/-- `buildFilterParams`: hyphenate each key, stringify each value, skip
`undefined` and `null` values. -/
def buildFilterParams : List (String × JVal) → List (String × String)
  | [] => []
  | (_, JVal.undefined) :: rest => buildFilterParams rest
  | (_, JVal.null) :: rest => buildFilterParams rest
  | (k, v) :: rest => (camelToKebab k, jsToString v) :: buildFilterParams rest

/-- The `filter[key]=value` entries appended for a `filter` object. -/
def filterEntries (o : List (String × JVal)) : List (String × String) :=
  (buildFilterParams o).map (fun p => ("filter[" ++ p.1 ++ "]", p.2))

/-- The `page[size]=` / `page[number]=` entries appended for a `page`
object: each emitted only when the corresponding property is truthy. -/
def pageEntries (v : JVal) : List (String × String) :=
  (if truthy (jprop v "size") then [("page[size]", jsToString (jprop v "size"))] else [])
    ++ (if truthy (jprop v "number") then [("page[number]", jsToString (jprop v "number"))] else [])

/-- The query-string entries one `params` entry contributes in
`buildQueryString`: `undefined` / `null` values are skipped; a `filter`
object expands to `filter[...]` entries; a `page` object expands to
`page[size]` / `page[number]`; string / number / boolean scalars are
appended verbatim; every other shape is silently ignored. -/
def qsEntryFor (k : String) (v : JVal) : List (String × String) :=
  match v with
  | .undefined => []
  | .null => []
  | .obj o =>
    if k = "filter" then filterEntries o
    else if k = "page" then pageEntries (JVal.obj o)
    else []
  | .arr l =>
    if k = "filter" then filterEntries (jsEntries (JVal.arr l))
    else if k = "page" then pageEntries (JVal.arr l)
    else []
  | .str s => [(k, s)]
  | .num n => [(k, toString n)]
  | .bool b => [(k, cond b "true" "false")]

/-- `ITGlueClient.buildQueryString`, as the ordered list of appended
`key=value` pairs (the final `?`-prefixed rendering is injective in this
list and carries no further logic). -/
def buildQueryString : List (String × JVal) → List (String × String)
  | [] => []
  | (k, v) :: rest => qsEntryFor k v ++ buildQueryString rest

theorem buildQueryString_append (a b : List (String × JVal)) :
    buildQueryString (a ++ b) = buildQueryString a ++ buildQueryString b := by
  induction a with
  | nil => rfl
  | cons p rest ih =>
    obtain ⟨k, v⟩ := p
    simp [buildQueryString, ih]

theorem mem_buildQueryString {p : String × String} {ps : List (String × JVal)}
    (hp : p ∈ buildQueryString ps) : ∃ q ∈ ps, p ∈ qsEntryFor q.1 q.2 := by
  induction ps with
  | nil => simp [buildQueryString] at hp
  | cons q rest ih =>
    obtain ⟨k, v⟩ := q
    rw [buildQueryString] at hp
    rcases List.mem_append.mp hp with h | h
    · exact ⟨(k, v), List.mem_cons_self _ _, h⟩
    · obtain ⟨q', hq', hpq'⟩ := ih h
      exact ⟨q', List.mem_cons_of_mem _ hq', hpq'⟩

theorem pageEntries_key {p : String × String} {v : JVal} (hp : p ∈ pageEntries v) :
    p.1 = "page[size]" ∨ p.1 = "page[number]" := by
  rw [pageEntries] at hp
  rcases List.mem_append.mp hp with h | h
  · left
    split at h <;> simp_all
  · right
    split at h <;> simp_all

theorem qsEntryFor_key {p : String × String} {k : String} {v : JVal}
    (hp : p ∈ qsEntryFor k v) :
    p.1 = k ∨ p.1 = "page[size]" ∨ p.1 = "page[number]" ∨
      ∃ x, p.1 = "filter[" ++ x ++ "]" := by
  cases v with
  | undefined => simp [qsEntryFor] at hp
  | null => simp [qsEntryFor] at hp
  | str s => left; rw [qsEntryFor] at hp; simp_all
  | num n => left; rw [qsEntryFor] at hp; simp_all
  | bool b => left; rw [qsEntryFor] at hp; simp_all
  | obj o =>
    rw [qsEntryFor] at hp
    split at hp
    · obtain ⟨q, _, hq⟩ := List.mem_map.mp hp
      exact Or.inr (Or.inr (Or.inr ⟨q.1, by rw [← hq]⟩))
    · split at hp
      · rcases pageEntries_key hp with h | h
        · exact Or.inr (Or.inl h)
        · exact Or.inr (Or.inr (Or.inl h))
      · simp at hp
  | arr l =>
    rw [qsEntryFor] at hp
    split at hp
    · obtain ⟨q, _, hq⟩ := List.mem_map.mp hp
      exact Or.inr (Or.inr (Or.inr ⟨q.1, by rw [← hq]⟩))
    · split at hp
      · rcases pageEntries_key hp with h | h
        · exact Or.inr (Or.inl h)
        · exact Or.inr (Or.inr (Or.inl h))
      · simp at hp

theorem filter_bracket_ne_show_password (x : String) :
    "filter[" ++ x ++ "]" ≠ "show_password" := by
  intro h
  have hd := congrArg String.data h
  rw [String.data_append, String.data_append] at hd
  have h1 : ("filter[" : String).data = ['f', 'i', 'l', 't', 'e', 'r', '['] := rfl
  have h2 : ("show_password" : String).data
      = ['s', 'h', 'o', 'w', '_', 'p', 'a', 's', 's', 'w', 'o', 'r', 'd'] := rfl
  rw [h1, h2] at hd
  simp at hd

/-! ## JSON:API deserialisation
(src/index.ts, `convertKeysToCamel` / `deserializeResource`) -/

/-- `convertKeysToCamel`: rewrite every key to camel case; recurse into
values that are non-null, non-array objects; leave every other value
(including arrays) unchanged. -/
def convertKeysToCamel : List (String × JVal) → List (String × JVal)
  | [] => []
  | (k, JVal.obj o) :: rest =>
    (kebabToCamel k, JVal.obj (convertKeysToCamel o)) :: convertKeysToCamel rest
  | (k, v) :: rest => (kebabToCamel k, v) :: convertKeysToCamel rest

/-- A raw JSON:API resource (`JsonApiResource` in the source): `id`, `type`
and an optional hyphen-keyed attributes object. -/
structure JsonApiResource where
  id : String
  rtype : String
  attributes : Option (List (String × JVal))

/-- `deserializeResource`: a flat object with `id`, `type` and the
camel-cased attributes merged in. -/
def deserializeResource (r : JsonApiResource) : List (String × JVal) :=
  [("id", JVal.str r.id), ("type", JVal.str r.rtype)]
    ++ (match r.attributes with
        | some attrs => convertKeysToCamel attrs
        | none => [])

/-! ## The response envelope and `ITGlueClient.request` -/

/-- One object of the envelope's `errors` array; each field is optional
(`undefined` when absent). -/
structure JsonApiErrorObj where
  title : JVal
  detail : JVal
  estatus : JVal

/-- The `data` field of the envelope: a single resource or a list. -/
inductive JsonData where
  | single : JsonApiResource → JsonData
  | list : List JsonApiResource → JsonData

/-- The optional `meta` object; each hyphen-keyed field is `undefined`
when absent and may be `null` where the upstream sends null. -/
structure JsonApiMeta where
  currentPage : JVal
  nextPage : JVal
  prevPage : JVal
  totalPages : JVal
  totalCount : JVal

/-- The parsed response envelope (`JsonApiResponse` in the source). -/
structure JsonApiResponse where
  data : JsonData
  meta : Option JsonApiMeta
  errors : Option (List JsonApiErrorObj)

/-- The normalised pagination metadata (`PaginationMeta` in the source);
fields keep their JavaScript value shapes (numbers, or `null` for the
nullable `nextPage` / `prevPage`). -/
structure PaginationMeta where
  currentPage : JVal
  nextPage : JVal
  prevPage : JVal
  totalPages : JVal
  totalCount : JVal

/-- What one `fetch` round trip yields to `request`: the HTTP status, the
raw body text (read on error paths) and the parsed JSON body (read on
success paths). -/
structure FetchResponse where
  status : Nat
  bodyText : String
  bodyJson : JsonApiResponse

/-- The two failure shapes `request` can raise: a non-2xx HTTP failure
carrying status and raw body, or an envelope-level failure carrying the
joined error messages. -/
inductive ITGlueError where
  | http : Nat → String → ITGlueError
  | api : String → ITGlueError

/-- `json.meta?.[field]`: optional chaining over the absent meta object. -/
def metaField (j : JsonApiResponse) (f : JsonApiMeta → JVal) : JVal :=
  match j.meta with
  | some m => f m
  | none => JVal.undefined

/-- `e.detail || e.title` for one reported error object. -/
def errMessage (e : JsonApiErrorObj) : JVal := jsOr e.detail e.title

/-- One element of `Array.prototype.join`'s rendering: `null` and
`undefined` become empty strings. -/
def joinElem : JVal → String
  | .null => ""
  | .undefined => ""
  | v => jsToString v

/-- `messages.join(", ")`. -/
def joinWithComma : List JVal → String
  | [] => ""
  | [v] => joinElem v
  | v :: v2 :: rest => joinElem v ++ ", " ++ joinWithComma (v2 :: rest)

/-- `json.errors && json.errors.length > 0`. -/
def hasEnvelopeErrors (j : JsonApiResponse) : Bool :=
  match j.errors with
  | some es => decide (0 < es.length)
  | none => false

/-- `ITGlueClient.request`, from the point where the `fetch` response is
available: fail with status and raw body on a non-2xx status; fail with the
joined messages when the parsed body carries a non-empty `errors` array;
otherwise wrap `data` into a list, deserialise each element and derive the
pagination metadata with its defaults. -/
def request (resp : FetchResponse) :
    Except ITGlueError (List (List (String × JVal)) × PaginationMeta) :=
  if (200 ≤ resp.status && resp.status ≤ 299) = false then
    Except.error (ITGlueError.http resp.status resp.bodyText)
  else if hasEnvelopeErrors resp.bodyJson then
    Except.error (ITGlueError.api
      (joinWithComma (((resp.bodyJson.errors).getD []).map errMessage)))
  else
    let data : List (List (String × JVal)) :=
      match resp.bodyJson.data with
      | JsonData.list rs => rs.map deserializeResource
      | JsonData.single r => [deserializeResource r]
    Except.ok (data,
      { currentPage := jsOr (metaField resp.bodyJson (fun m => m.currentPage)) (JVal.num 1)
        nextPage := jsOr (metaField resp.bodyJson (fun m => m.nextPage)) JVal.null
        prevPage := jsOr (metaField resp.bodyJson (fun m => m.prevPage)) JVal.null
        totalPages := jsOr (metaField resp.bodyJson (fun m => m.totalPages)) (JVal.num 1)
        totalCount := jsOr (metaField resp.bodyJson (fun m => m.totalCount))
          (JVal.num data.length) })

/-! ## Tool catalog (the `ListToolsRequestSchema` handler)

Each entry records the tool's name, its description, the input-schema
properties as `(name, declared type)` pairs in declaration order, and the
schema's `required` list. -/

structure ToolDef where
  name : String
  description : String
  properties : List (String × String)
  required : List String

/-- The static nine-tool catalog returned verbatim for a list-tools
request (src/index.ts, lines 230-490). -/
def toolCatalog : List ToolDef :=
  [ { name := "search_organizations"
      description := "Search for organizations in IT Glue with optional filtering"
      properties := [("name", "string"), ("organization_type_id", "number"),
        ("organization_status_id", "number"), ("psa_id", "string"),
        ("page_size", "number"), ("page_number", "number"), ("sort", "string")]
      required := [] },
    { name := "get_organization"
      description := "Get a specific organization by ID from IT Glue"
      properties := [("id", "string")]
      required := ["id"] },
    { name := "search_configurations"
      description := "Search for configurations (devices/assets) in IT Glue"
      properties := [("organization_id", "number"), ("name", "string"),
        ("configuration_type_id", "number"), ("configuration_status_id", "number"),
        ("serial_number", "string"), ("rmm_id", "string"), ("psa_id", "string"),
        ("page_size", "number"), ("page_number", "number"), ("sort", "string")]
      required := [] },
    { name := "get_configuration"
      description := "Get a specific configuration (device/asset) by ID from IT Glue"
      properties := [("id", "string")]
      required := ["id"] },
    { name := "search_passwords"
      description := "Search for password entries in IT Glue (returns metadata only, not actual passwords)"
      properties := [("organization_id", "number"), ("name", "string"),
        ("password_category_id", "number"), ("url", "string"), ("username", "string"),
        ("page_size", "number"), ("page_number", "number"), ("sort", "string")]
      required := [] },
    { name := "get_password"
      description := "Get a specific password entry by ID from IT Glue (includes the actual password value)"
      properties := [("id", "string"), ("show_password", "boolean")]
      required := ["id"] },
    { name := "search_documents"
      description := "Search for documents in IT Glue"
      properties := [("organization_id", "number"), ("name", "string"),
        ("page_size", "number"), ("page_number", "number"), ("sort", "string")]
      required := [] },
    { name := "search_flexible_assets"
      description := "Search for flexible assets in IT Glue (requires flexible_asset_type_id filter)"
      properties := [("flexible_asset_type_id", "number"), ("organization_id", "number"),
        ("name", "string"), ("page_size", "number"), ("page_number", "number"),
        ("sort", "string")]
      required := ["flexible_asset_type_id"] },
    { name := "itglue_health_check"
      description := "Check connectivity to IT Glue API by fetching organization types"
      properties := []
      required := [] } ]

/-! ## Credentials and the tool dispatcher
(the `CallToolRequestSchema` handler) -/

/-- The IT Glue region selector. -/
inductive ITGlueRegion where
  | us : ITGlueRegion
  | eu : ITGlueRegion
  | au : ITGlueRegion

/-- `REGION_URLS`. -/
def REGION_URLS : ITGlueRegion → String
  | .us => "https://api.itglue.com"
  | .eu => "https://api.eu.itglue.com"
  | .au => "https://api.au.itglue.com"

/-- `GatewayCredentials` as resolved from the configuration source:
`apiKey` is absent (`none`) when neither environment variable is set. -/
structure GatewayCredentials where
  apiKey : Option String
  region : Option ITGlueRegion
  baseUrl : Option String

/-- Truthiness of `credentials.apiKey` (the handler's
`if (!credentials.apiKey)` guard: absent and empty keys both fail). -/
def hasApiKey (c : GatewayCredentials) : Bool :=
  match c.apiKey with
  | some s => !(s == "")
  | none => false

/-- The observable outcome of one call-tool invocation, up to the single
HTTP round trip: `errorBlock msg` is an `isError: true` text content block
returned with no HTTP request made and no client call issued; or
`httpCall path params` is the one `client.request(path, params)` /
`client.get(path, params)` call the selected branch performs (whose result
the handler then serialises into a text content block). -/
inductive DispatchResult where
  | errorBlock : String → DispatchResult
  | httpCall : String → List (String × JVal) → DispatchResult

/-- The error text returned when no API key resolves. -/
def credsErrorText : String :=
  "Error: No API credentials provided. Please configure your IT Glue API key via the ITGLUE_API_KEY or X_API_KEY environment variable."

/-- `if (args?.a) filter.key = args.a` — the conditional insertion used
throughout the search branches. -/
def addIf (args : Option (List (String × JVal))) (argName fieldKey : String) :
    List (String × JVal) :=
  if truthy (argGet args argName) then [(fieldKey, argGet args argName)] else []

/-- `params.page = { size: page_size || 50, number: page_number || 1 }`. -/
def pageParam (args : Option (List (String × JVal))) : JVal :=
  JVal.obj [("size", jsOr (argGet args "page_size") (JVal.num 50)),
    ("number", jsOr (argGet args "page_number") (JVal.num 1))]

/-- Shared tail of each search branch: attach `filter` when non-empty,
`sort` when truthy, and always `page` — in the source's insertion order. -/
def searchParamsOf (filter : List (String × JVal))
    (args : Option (List (String × JVal))) : List (String × JVal) :=
  (if 0 < filter.length then [("filter", JVal.obj filter)] else [])
    ++ addIf args "sort" "sort" ++ [("page", pageParam args)]

/-- The `search_organizations` branch's filter object. -/
def searchOrganizationsFilter (args : Option (List (String × JVal))) :
    List (String × JVal) :=
  addIf args "name" "name" ++ addIf args "organization_type_id" "organizationTypeId"
    ++ addIf args "organization_status_id" "organizationStatusId"
    ++ addIf args "psa_id" "psaId"

/-- The `search_configurations` branch's filter object. -/
def searchConfigurationsFilter (args : Option (List (String × JVal))) :
    List (String × JVal) :=
  addIf args "organization_id" "organizationId" ++ addIf args "name" "name"
    ++ addIf args "configuration_type_id" "configurationTypeId"
    ++ addIf args "configuration_status_id" "configurationStatusId"
    ++ addIf args "serial_number" "serialNumber" ++ addIf args "rmm_id" "rmmId"
    ++ addIf args "psa_id" "psaId"

/-- The `search_passwords` branch's filter object. -/
def searchPasswordsFilter (args : Option (List (String × JVal))) :
    List (String × JVal) :=
  addIf args "organization_id" "organizationId" ++ addIf args "name" "name"
    ++ addIf args "password_category_id" "passwordCategoryId"
    ++ addIf args "url" "url" ++ addIf args "username" "username"

/-- The `search_passwords` branch's params before the forced
`show_password` entry. -/
def searchPasswordsBase (args : Option (List (String × JVal))) :
    List (String × JVal) :=
  searchParamsOf (searchPasswordsFilter args) args

/-- The `search_passwords` branch's params: the security invariant
`params.show_password = false` is appended unconditionally, after filter,
sort and page. -/
def searchPasswordsParams (args : Option (List (String × JVal))) :
    List (String × JVal) :=
  searchPasswordsBase args ++ [("show_password", JVal.bool false)]

/-- The `search_documents` branch's filter object. -/
def searchDocumentsFilter (args : Option (List (String × JVal))) :
    List (String × JVal) :=
  addIf args "organization_id" "organizationId" ++ addIf args "name" "name"

/-- The `search_flexible_assets` branch's filter object:
`flexibleAssetTypeId` is always injected, then the optional fields. -/
def searchFlexibleAssetsFilter (args : Option (List (String × JVal))) :
    List (String × JVal) :=
  ("flexibleAssetTypeId", argGet args "flexible_asset_type_id")
    :: (addIf args "organization_id" "organizationId" ++ addIf args "name" "name")

/-- The `search_flexible_assets` branch's params: `filter` is attached
unconditionally. -/
def searchFlexibleAssetsParams (args : Option (List (String × JVal))) :
    List (String × JVal) :=
  [("filter", JVal.obj (searchFlexibleAssetsFilter args))]
    ++ addIf args "sort" "sort" ++ [("page", pageParam args)]

/-- `args?.show_password !== false` in the `get_password` branch. -/
def showPasswordArg (args : Option (List (String × JVal))) : Bool :=
  match argGet args "show_password" with
  | JVal.bool false => false
  | _ => true

/-- The `CallToolRequestSchema` handler: check credentials first, then
switch on the tool name.  Each branch either returns an error content
block before any client call, or issues exactly one client call with the
path and params the source builds. -/
def dispatch (credentials : GatewayCredentials) (name : String)
    (args : Option (List (String × JVal))) : DispatchResult :=
  if hasApiKey credentials = false then DispatchResult.errorBlock credsErrorText
  else if name = "search_organizations" then
    DispatchResult.httpCall "/organizations"
      (searchParamsOf (searchOrganizationsFilter args) args)
  else if name = "get_organization" then
    if truthy (argGet args "id") = false then
      DispatchResult.errorBlock "Error: Organization ID is required"
    else DispatchResult.httpCall ("/organizations/" ++ jsToString (argGet args "id")) []
  else if name = "search_configurations" then
    DispatchResult.httpCall "/configurations"
      (searchParamsOf (searchConfigurationsFilter args) args)
  else if name = "get_configuration" then
    if truthy (argGet args "id") = false then
      DispatchResult.errorBlock "Error: Configuration ID is required"
    else DispatchResult.httpCall ("/configurations/" ++ jsToString (argGet args "id")) []
  else if name = "search_passwords" then
    DispatchResult.httpCall "/passwords" (searchPasswordsParams args)
  else if name = "get_password" then
    if truthy (argGet args "id") = false then
      DispatchResult.errorBlock "Error: Password ID is required"
    else
      DispatchResult.httpCall ("/passwords/" ++ jsToString (argGet args "id"))
        [("show_password", JVal.bool (showPasswordArg args))]
  else if name = "search_documents" then
    DispatchResult.httpCall "/documents"
      (searchParamsOf (searchDocumentsFilter args) args)
  else if name = "search_flexible_assets" then
    if truthy (argGet args "flexible_asset_type_id") = false then
      DispatchResult.errorBlock "Error: flexible_asset_type_id is required"
    else DispatchResult.httpCall "/flexible_assets" (searchFlexibleAssetsParams args)
  else if name = "itglue_health_check" then
    DispatchResult.httpCall "/organization_types" [("page", JVal.obj [("size", JVal.num 1)])]
  else DispatchResult.errorBlock ("Unknown tool: " ++ name)

/-! ## Claims about the case converter -/

/-- Claim C8, counterexample: the claim asserts both conversions are the
identity on hyphen-free strings, but `camelToKebab` rewrites every
uppercase letter even when no hyphen is present: on the hyphen-free
string `"A"` it produces `"-a"`. -/
theorem camelToKebab_not_id_on_hyphen_free :
    '-' ∉ ("A" : String).data ∧ camelToKebab "A" ≠ "A" := by
  constructor
  · decide
  · decide

/-- Claim C8 (amended): for every string with no hyphen, `kebabToCamel` is
the identity; for every string with no uppercase ASCII letter,
`camelToKebab` is the identity. -/
theorem case_conversion_identity_on_hyphen_free (s : String) :
    ('-' ∉ s.data → kebabToCamel s = s) ∧
    ((∀ c ∈ s.data, isUpperAZ c = false) → camelToKebab s = s) := by
  obtain ⟨l⟩ := s
  constructor
  · intro h
    show String.mk (kebabToCamelL l) = String.mk l
    rw [kebabToCamelL_id h]
  · intro h
    show String.mk (camelToKebabL l) = String.mk l
    rw [camelToKebabL_id h]

theorem case_conversion_identity_witness :
    ('-' ∉ ("hello" : String).data ∧ kebabToCamel "hello" = "hello") ∧
    ((∀ c ∈ ("hello" : String).data, isUpperAZ c = false) ∧ camelToKebab "hello" = "hello") :=
  ⟨⟨by decide, (case_conversion_identity_on_hyphen_free "hello").1 (by decide)⟩,
   ⟨by decide, (case_conversion_identity_on_hyphen_free "hello").2 (by decide)⟩⟩

/-- Claim C9: on any string made of hyphen-separated nonempty lowercase
segments, `camelToKebab` inverts `kebabToCamel`. -/
theorem kebab_camel_roundtrip (segs : List (List Char))
    (h : ∀ seg ∈ segs, seg ≠ [] ∧ ∀ c ∈ seg, isLowerAZ c = true) :
    camelToKebab (kebabToCamel (String.mk (joinKebab segs))) = String.mk (joinKebab segs) := by
  have hchars : ∀ c ∈ joinKebab segs, isLowerAZ c = true ∨ c = '-' := by
    intro c hc
    rcases mem_joinKebab hc with ⟨seg, hseg, hcs⟩ | rfl
    · exact Or.inl ((h seg hseg).2 c hcs)
    · exact Or.inr rfl
  show String.mk (camelToKebabL (kebabToCamelL (joinKebab segs))) = String.mk (joinKebab segs)
  rw [kebab_camel_roundtrip_aux hchars]

theorem kebab_camel_roundtrip_witness :
    camelToKebab (kebabToCamel (String.mk (joinKebab [['a', 'b'], ['c']])))
      = String.mk (joinKebab [['a', 'b'], ['c']]) :=
  kebab_camel_roundtrip [['a', 'b'], ['c']] (by decide)

/-! ## Claims about the dispatcher's guards and the catalog -/

/-- Claim C10: the missing-credentials check precedes tool-name dispatch:
whenever no API key resolves, every call-tool invocation — any tool name,
known or not, any arguments — yields the credentials error block, with no
client constructed and no HTTP call made (`errorBlock` precludes any
`httpCall`). -/
theorem missing_credentials_short_circuits (credentials : GatewayCredentials)
    (name : String) (args : Option (List (String × JVal)))
    (h : hasApiKey credentials = false) :
    dispatch credentials name args = DispatchResult.errorBlock credsErrorText := by
  rw [dispatch, if_pos h]

theorem missing_credentials_short_circuits_witness :
    dispatch ⟨none, some ITGlueRegion.us, none⟩ "get_organization" none
      = DispatchResult.errorBlock credsErrorText ∧
    dispatch ⟨some "", some ITGlueRegion.us, none⟩ "no_such_tool" none
      = DispatchResult.errorBlock credsErrorText :=
  ⟨missing_credentials_short_circuits _ _ _ rfl,
   missing_credentials_short_circuits _ _ _ rfl⟩

/-- Claim C6: with credentials present, each get tool invoked without `id`
(and `search_flexible_assets` without `flexible_asset_type_id`) returns
its descriptive error content block, issuing no HTTP call. -/
theorem required_arg_missing_errors_before_http (credentials : GatewayCredentials)
    (args : Option (List (String × JVal))) (hk : hasApiKey credentials = true) :
    (argGet args "id" = JVal.undefined →
      dispatch credentials "get_organization" args
          = DispatchResult.errorBlock "Error: Organization ID is required" ∧
      dispatch credentials "get_configuration" args
          = DispatchResult.errorBlock "Error: Configuration ID is required" ∧
      dispatch credentials "get_password" args
          = DispatchResult.errorBlock "Error: Password ID is required") ∧
    (argGet args "flexible_asset_type_id" = JVal.undefined →
      dispatch credentials "search_flexible_assets" args
          = DispatchResult.errorBlock "Error: flexible_asset_type_id is required") := by
  have hkf : (hasApiKey credentials = false) = False := by simp [hk]
  constructor
  · intro h
    have ht : truthy (argGet args "id") = false := by rw [h]; rfl
    refine ⟨?_, ?_, ?_⟩ <;> simp [dispatch, hkf, ht]
  · intro h
    have ht : truthy (argGet args "flexible_asset_type_id") = false := by rw [h]; rfl
    simp [dispatch, hkf, ht]

theorem required_arg_missing_errors_witness :
    dispatch ⟨some "k", none, none⟩ "get_organization" none
      = DispatchResult.errorBlock "Error: Organization ID is required" ∧
    dispatch ⟨some "k", none, none⟩ "search_flexible_assets" (some [("name", JVal.str "x")])
      = DispatchResult.errorBlock "Error: flexible_asset_type_id is required" :=
  ⟨((required_arg_missing_errors_before_http ⟨some "k", none, none⟩ none rfl).1 rfl).1,
   (required_arg_missing_errors_before_http ⟨some "k", none, none⟩
      (some [("name", JVal.str "x")]) rfl).2 rfl⟩

/-- Claim C2, code behaviour at the failing input: `search_documents`
invoked with `organization_id: 123` issues its request against the static
collection path `/documents` (with the id relegated to a filter), not
against the organization-scoped relationship path
`/organizations/123/relationships/documents` that the claim (and the
repository's own tests and changelog) describe. -/
theorem search_documents_uses_static_collection_path :
    dispatch ⟨some "key", some ITGlueRegion.us, none⟩ "search_documents"
        (some [("organization_id", JVal.num 123)])
      = DispatchResult.httpCall "/documents"
          [("filter", JVal.obj [("organizationId", JVal.num 123)]),
           ("page", JVal.obj [("size", JVal.num 50), ("number", JVal.num 1)])] ∧
    ("/documents" : String) ≠ "/organizations/123/relationships/documents" := by
  constructor
  · rfl
  · decide

/-- Claim C3, code behaviour: in the static tool catalog, the
`search_documents` entry declares an empty `required` list — in
particular `organization_id` is not required — contradicting the claim
(and the repository's own test expectations). -/
theorem search_documents_catalog_requires_nothing :
    (toolCatalog.find? (fun td => td.name == "search_documents")).map
        (fun td => td.required) = some [] ∧
    ∀ td ∈ toolCatalog, td.name = "search_documents" → "organization_id" ∉ td.required := by
  constructor
  · rfl
  · decide

/-! ## Claim about the query-string builder -/

/-- Claim C7: in `buildQueryString`, the `page[size]` / `page[number]`
entries are emitted exactly when the corresponding `page.size` /
`page.number` property is truthy — so a value of `0` yields no entry —
and `undefined` / `null` values are skipped both at the top level and
inside `filter`. -/
theorem page_params_emitted_iff_truthy (ps1 ps2 : List (String × JVal))
    (o : List (String × JVal)) (k : String) :
    (buildQueryString (ps1 ++ ("page", JVal.obj o) :: ps2)
        = buildQueryString ps1 ++ pageEntries (JVal.obj o) ++ buildQueryString ps2) ∧
    ("page[size]" ∈ (pageEntries (JVal.obj o)).map Prod.fst ↔
        truthy (jprop (JVal.obj o) "size") = true) ∧
    ("page[number]" ∈ (pageEntries (JVal.obj o)).map Prod.fst ↔
        truthy (jprop (JVal.obj o) "number") = true) ∧
    (jprop (JVal.obj o) "size" = JVal.num 0 →
        "page[size]" ∉ (pageEntries (JVal.obj o)).map Prod.fst) ∧
    (jprop (JVal.obj o) "number" = JVal.num 0 →
        "page[number]" ∉ (pageEntries (JVal.obj o)).map Prod.fst) ∧
    buildQueryString ((k, JVal.undefined) :: ps2) = buildQueryString ps2 ∧
    buildQueryString ((k, JVal.null) :: ps2) = buildQueryString ps2 ∧
    buildFilterParams ((k, JVal.undefined) :: o) = buildFilterParams o ∧
    buildFilterParams ((k, JVal.null) :: o) = buildFilterParams o := by
  have hsize : "page[size]" ∈ (pageEntries (JVal.obj o)).map Prod.fst ↔
      truthy (jprop (JVal.obj o) "size") = true := by
    cases hs : truthy (jprop (JVal.obj o) "size") <;>
      cases hn : truthy (jprop (JVal.obj o) "number") <;>
        simp [pageEntries, hs, hn]
  have hnum : "page[number]" ∈ (pageEntries (JVal.obj o)).map Prod.fst ↔
      truthy (jprop (JVal.obj o) "number") = true := by
    cases hs : truthy (jprop (JVal.obj o) "size") <;>
      cases hn : truthy (jprop (JVal.obj o) "number") <;>
        simp [pageEntries, hs, hn]
  refine ⟨?_, hsize, hnum, ?_, ?_, ?_, ?_, ?_, ?_⟩
  · rw [buildQueryString_append]
    simp [buildQueryString, qsEntryFor]
  · intro h hmem
    have := hsize.mp hmem
    rw [h] at this
    simp [truthy] at this
  · intro h hmem
    have := hnum.mp hmem
    rw [h] at this
    simp [truthy] at this
  · rfl
  · rfl
  · rfl
  · rfl

theorem page_params_emitted_iff_truthy_witness :
    "page[size]" ∉ (pageEntries (JVal.obj [("size", JVal.num 0)])).map Prod.fst ∧
    "page[number]" ∉ (pageEntries (JVal.obj [("number", JVal.num 0)])).map Prod.fst :=
  ⟨(page_params_emitted_iff_truthy [] [] [("size", JVal.num 0)] "x").2.2.2.1 rfl,
   (page_params_emitted_iff_truthy [] [] [("number", JVal.num 0)] "x").2.2.2.2.1 rfl⟩

/-! ## Claims about `ITGlueClient.request` -/

/-- Claim C4: `request` fails with the HTTP status and raw body exactly
when the status is outside 200–299, and on an in-range status whose parsed
body carries a non-empty `errors` array it fails with the joined
detail-or-title of each error object. -/
theorem request_error_conditions (resp : FetchResponse) :
    ((request resp = Except.error (ITGlueError.http resp.status resp.bodyText)) ↔
      ¬(200 ≤ resp.status ∧ resp.status ≤ 299)) ∧
    ((200 ≤ resp.status ∧ resp.status ≤ 299) →
      ∀ es, resp.bodyJson.errors = some es → es ≠ [] →
        request resp = Except.error (ITGlueError.api (joinWithComma (es.map errMessage)))) := by
  by_cases hr : 200 ≤ resp.status ∧ resp.status ≤ 299
  · have hb : (200 ≤ resp.status && resp.status ≤ 299) = true := by simp [hr.1, hr.2]
    have hmain : ∀ es, resp.bodyJson.errors = some es → es ≠ [] →
        request resp = Except.error (ITGlueError.api (joinWithComma (es.map errMessage))) := by
      intro es hes hne
      have hee : hasEnvelopeErrors resp.bodyJson = true := by
        rw [hasEnvelopeErrors, hes]
        simpa using List.length_pos.mpr hne
      rw [request, hb]
      simp [hee, hes]
    constructor
    · constructor
      · intro h
        exfalso
        rcases hee : hasEnvelopeErrors resp.bodyJson with _ | _
        · rw [request, hb] at h
          simp [hee] at h
        · rw [request, hb] at h
          simp [hee] at h
      · intro h
        exact absurd hr h
    · intro _ es hes hne
      exact hmain es hes hne
  · have hiff : ((200 ≤ resp.status && resp.status ≤ 299) = true) ↔
        (200 ≤ resp.status ∧ resp.status ≤ 299) := by simp
    have hb : (200 ≤ resp.status && resp.status ≤ 299) = false :=
      Bool.eq_false_iff.mpr fun hx => hr (hiff.mp hx)
    constructor
    · constructor
      · intro _
        exact hr
      · intro _
        rw [request, hb]
        rfl
    · intro h
      exact absurd h hr

theorem request_error_conditions_witness :
    request ⟨500, "boom", ⟨JsonData.list [], none, none⟩⟩
      = Except.error (ITGlueError.http 500 "boom") ∧
    request ⟨200, "x", ⟨JsonData.list [], none,
        some [⟨JVal.str "T", JVal.str "D", JVal.undefined⟩]⟩⟩
      = Except.error (ITGlueError.api
          (joinWithComma ([(⟨JVal.str "T", JVal.str "D", JVal.undefined⟩ : JsonApiErrorObj)].map
            errMessage))) :=
  ⟨(request_error_conditions ⟨500, "boom", ⟨JsonData.list [], none, none⟩⟩).1.mpr (by decide),
   (request_error_conditions ⟨200, "x", ⟨JsonData.list [], none,
      some [⟨JVal.str "T", JVal.str "D", JVal.undefined⟩]⟩⟩).2 (by decide) _ rfl (by simp)⟩

/-- Claim C5: a 2xx response whose envelope has a single-resource `data`
field, no `errors` and no `meta` yields a one-element data list and the
default pagination metadata, with `totalCount` equal to that length. -/
theorem request_single_resource_defaults (resp : FetchResponse) (r : JsonApiResource)
    (hok : 200 ≤ resp.status ∧ resp.status ≤ 299)
    (hdata : resp.bodyJson.data = JsonData.single r)
    (hmeta : resp.bodyJson.meta = none)
    (herr : resp.bodyJson.errors = none) :
    request resp = Except.ok ([deserializeResource r],
      { currentPage := JVal.num 1, nextPage := JVal.null, prevPage := JVal.null,
        totalPages := JVal.num 1, totalCount := JVal.num 1 }) ∧
    [deserializeResource r].length = 1 := by
  have hb : (200 ≤ resp.status && resp.status ≤ 299) = true := by simp [hok.1, hok.2]
  have hee : hasEnvelopeErrors resp.bodyJson = false := by
    rw [hasEnvelopeErrors, herr]
  constructor
  · rw [request, hb]
    simp [hee, hdata, metaField, hmeta, jsOr, truthy]
  · rfl

theorem request_single_resource_defaults_witness :
    request ⟨200, "", ⟨JsonData.single ⟨"1", "organizations", none⟩, none, none⟩⟩
      = Except.ok ([deserializeResource ⟨"1", "organizations", none⟩],
        { currentPage := JVal.num 1, nextPage := JVal.null, prevPage := JVal.null,
          totalPages := JVal.num 1, totalCount := JVal.num 1 }) :=
  (request_single_resource_defaults
    ⟨200, "", ⟨JsonData.single ⟨"1", "organizations", none⟩, none, none⟩⟩
    ⟨"1", "organizations", none⟩ (by decide) rfl rfl rfl).1

/-! ## Claim about the `search_passwords` security invariant -/

theorem addIf_key {q : String × JVal} {args : Option (List (String × JVal))}
    {a fk : String} (hq : q ∈ addIf args a fk) : q.1 = fk := by
  rw [addIf] at hq
  split at hq <;> simp_all

theorem searchPasswordsBase_key {q : String × JVal}
    {args : Option (List (String × JVal))} (hq : q ∈ searchPasswordsBase args) :
    q.1 = "filter" ∨ q.1 = "sort" ∨ q.1 = "page" := by
  rw [searchPasswordsBase, searchParamsOf] at hq
  rcases List.mem_append.mp hq with h | h
  · rcases List.mem_append.mp h with h1 | h1
    · left
      split at h1 <;> simp_all
    · right; left
      exact addIf_key h1
  · right; right
    simp_all

theorem searchPasswordsBase_no_show_password {p : String × String}
    {args : Option (List (String × JVal))}
    (hp : p ∈ buildQueryString (searchPasswordsBase args)) :
    (p.1 == "show_password") = false := by
  obtain ⟨q, hq, hpq⟩ := mem_buildQueryString hp
  rcases qsEntryFor_key hpq with h | h | h | ⟨x, h⟩
  · rcases searchPasswordsBase_key hq with h1 | h1 | h1 <;> rw [h, h1] <;> decide
  · rw [h]; decide
  · rw [h]; decide
  · rw [h]
    exact beq_eq_false_iff_ne.mpr (filter_bracket_ne_show_password x)

/-- Claim C1: for every invocation of `search_passwords` with credentials
present — whatever the arguments, including an attempted
`show_password: true` — the params handed to `client.request` end with the
forced `show_password = false` entry, the rendered query string carries
`show_password=false`, and no other `show_password` query parameter is
emitted. -/
theorem search_passwords_forces_show_password_false
    (credentials : GatewayCredentials) (args : Option (List (String × JVal)))
    (hk : hasApiKey credentials = true) :
    dispatch credentials "search_passwords" args
        = DispatchResult.httpCall "/passwords" (searchPasswordsParams args) ∧
    ("show_password", JVal.bool false) ∈ searchPasswordsParams args ∧
    ("show_password", "false") ∈ buildQueryString (searchPasswordsParams args) ∧
    (buildQueryString (searchPasswordsParams args)).filter
        (fun p => p.1 == "show_password") = [("show_password", "false")] := by
  have hkf : (hasApiKey credentials = false) = False := by simp [hk]
  have hsplit : buildQueryString (searchPasswordsParams args)
      = buildQueryString (searchPasswordsBase args) ++ [("show_password", "false")] := by
    rw [searchPasswordsParams, buildQueryString_append]
    rfl
  refine ⟨?_, ?_, ?_, ?_⟩
  · simp [dispatch, hkf]
  · rw [searchPasswordsParams]
    exact List.mem_append_right _ (List.mem_cons_self _ _)
  · rw [hsplit]
    exact List.mem_append_right _ (List.mem_cons_self _ _)
  · rw [hsplit, List.filter_append]
    have h1 : (buildQueryString (searchPasswordsBase args)).filter
        (fun p => p.1 == "show_password") = [] := by
      rw [List.filter_eq_nil_iff]
      intro p hp
      simp [searchPasswordsBase_no_show_password hp]
    rw [h1]
    rfl

theorem search_passwords_forces_show_password_false_witness :
    dispatch ⟨some "key", none, none⟩ "search_passwords"
        (some [("show_password", JVal.bool true), ("name", JVal.str "router")])
      = DispatchResult.httpCall "/passwords"
          (searchPasswordsParams
            (some [("show_password", JVal.bool true), ("name", JVal.str "router")])) ∧
    ("show_password", JVal.bool false)
      ∈ searchPasswordsParams
          (some [("show_password", JVal.bool true), ("name", JVal.str "router")]) :=
  ⟨(search_passwords_forces_show_password_false ⟨some "key", none, none⟩
      (some [("show_password", JVal.bool true), ("name", JVal.str "router")]) rfl).1,
   (search_passwords_forces_show_password_false ⟨some "key", none, none⟩
      (some [("show_password", JVal.bool true), ("name", JVal.str "router")]) rfl).2.1⟩
